import Mathlib

/-!
Verification of the payment-service adapter
(`paymentservice/src/PaymentServiceControl.cpp`).

The adapter is shallowly embedded: Qt value types become Lean structures
(`QDateTime` carries an optional formatted string, so that `isNull` and
`toString` behave as in Qt), each reply object becomes a structure holding
the error flag, the error code and text, and its kind-specific payload,
and each completion-handler slot becomes a function from its reply to the
list of observable events it performs, in order: signal emissions and the
final `deleteLater` on the reply.  The request-side methods become
functions from their parameters to the list of actions they perform
(request issuance; they emit no signal).  `qDebug` logging, `connect`
wiring and `Q_ASSERT` checks have no observable effect in this model and
are omitted.
-/

/-- Model of `QDateTime`: either null, or a value whose `toString`
rendering is the carried string. -/
structure QDateTime where
  val : Option String
deriving DecidableEq, Repr

def QDateTime.isNull (d : QDateTime) : Bool :=
  d.val.isNone

def QDateTime.toString (d : QDateTime) : String :=
  d.val.getD ""

/-- Model of `bb::platform::PurchaseReceipt`: the fields the adapter
reads.  `state` is the integer obtained by `static_cast<int>(r.state())`;
`initialPeriod` is the `int` returned by `r.initialPeriod()`. -/
structure PurchaseReceipt where
  date : QDateTime
  digitalGoodId : String
  digitalGoodSku : String
  purchaseId : String
  licenseKey : String
  purchaseMetadata : String
  state : Int
  isSubscription : Bool
  startDate : QDateTime
  endDate : QDateTime
  initialPeriod : Int
deriving DecidableEq, Repr

/-- `receiptToString` from `PaymentServiceControl.cpp` lines 38-57:
format the receipt into a user readable string.  `QString::number` on an
`int` is decimal rendering, modelled by `toString` on `Int`. -/
def receiptToString (r : PurchaseReceipt) : String :=
  let initialPeriod := toString r.initialPeriod
  let startDateStr := if r.startDate.isNull then "N/A" else r.startDate.toString
  let endDateStr := if r.endDate.isNull then "N/A" else r.endDate.toString
  let isSubscr := if r.isSubscription then "true" else "false"
  let itemStateStr := toString r.state
  "Date: " ++ r.date.toString ++
    "\nID/SKU: " ++ r.digitalGoodId ++ "/" ++ r.digitalGoodSku ++
    "\nPurchaseID/licenseKey: " ++ r.purchaseId ++ "/" ++ r.licenseKey ++
    "\nMetadata: " ++ r.purchaseMetadata ++
    "\nItemState/isSubscription?: " ++ itemStateStr ++ "/" ++ isSubscr ++
    "\nStart/End: " ++ startDateStr ++ "/" ++ endDateStr ++
    "\nInitialPeriod: " ++ initialPeriod ++ "\n"

/-- A request issued to the `PaymentManager`, one constructor per
`request*` call made by the adapter. -/
inductive Request where
  | purchase (id sku name metadata : String)
  | existingPurchases (refresh : Bool)
  | price (id sku : String)
  | subscriptionTerms (id sku : String)
  | subscriptionStatus (id sku : String)
  | cancelSubscription (purchaseId : String)
deriving DecidableEq, Repr

/-- A signal emitted by `PaymentServiceControl`, one constructor per
`emit` statement target in the source. -/
inductive Notification where
  | infoResponseError (code : Int) (text : String)
  | purchaseResponseSuccess (display : String)
  | existingPurchasesResponseSuccess (display : String)
  | priceResponseSuccess (price : String)
  | subscriptionTermsResponseSuccess (price initialPeriod renewalPrice renewalPeriod : String)
  | checkStatusResponseSuccess (active : Bool)
  | cancelSubscriptionResponseSuccess (canceled : Bool)
deriving DecidableEq, Repr

/-- Whether a notification travels on the shared error channel
(`infoResponseError`) rather than a kind-specific success channel. -/
def Notification.isErrorNote : Notification → Bool
  | .infoResponseError _ _ => true
  | _ => false

/-- An observable step of a completion handler: a signal emission or the
release of the reply object (`reply->deleteLater()`). -/
inductive Event where
  | emit (n : Notification)
  | deleteLater
deriving DecidableEq, Repr

/-- An observable step of a request-side method: issuing a request to the
payment manager, or emitting a signal (the request-side methods of the
source never emit, but the type records that they could). -/
inductive RequestAction where
  | issueRequest (r : Request)
  | raiseNote (n : Notification)
deriving DecidableEq, Repr

/-- Model of `bb::platform::PurchaseReply`. -/
structure PurchaseReply where
  isError : Bool
  errorCode : Int
  errorText : String
  receipt : PurchaseReceipt
deriving DecidableEq, Repr

/-- Model of `bb::platform::ExistingPurchasesReply`. -/
structure ExistingPurchasesReply where
  isError : Bool
  errorCode : Int
  errorText : String
  purchases : List PurchaseReceipt
deriving DecidableEq, Repr

/-- Model of `bb::platform::PriceReply` (`price()` is a `QString`). -/
structure PriceReply where
  isError : Bool
  errorCode : Int
  errorText : String
  price : String
deriving DecidableEq, Repr

/-- Model of `bb::platform::SubscriptionTermsReply` (all four payload
accessors return `QString`). -/
structure SubscriptionTermsReply where
  isError : Bool
  errorCode : Int
  errorText : String
  price : String
  initialPeriod : String
  renewalPrice : String
  renewalPeriod : String
deriving DecidableEq, Repr

/-- Model of `bb::platform::SubscriptionStatusReply`. -/
structure SubscriptionStatusReply where
  isError : Bool
  errorCode : Int
  errorText : String
  isActive : Bool
deriving DecidableEq, Repr

/-- Model of `bb::platform::CancelSubscriptionReply`. -/
structure CancelSubscriptionReply where
  isError : Bool
  errorCode : Int
  errorText : String
  isCanceled : Bool
deriving DecidableEq, Repr

namespace PaymentServiceControl

/-- `PaymentServiceControl::purchase` (lines 75-86): silently return when
`id` is empty, otherwise issue a purchase request. -/
def purchase (id sku name metadata : String) : List RequestAction :=
  if id.isEmpty then []
  else [RequestAction.issueRequest (Request.purchase id sku name metadata)]

/-- `PaymentServiceControl::purchaseResponse` (lines 92-111): emit the
shared error signal on error, otherwise emit the formatted receipt, then
release the reply. -/
def purchaseResponse (reply : PurchaseReply) : List Event :=
  (if reply.isError then
    [Event.emit (Notification.infoResponseError reply.errorCode reply.errorText)]
  else
    [Event.emit (Notification.purchaseResponseSuccess (receiptToString reply.receipt))])
  ++ [Event.deleteLater]

/-- `PaymentServiceControl::getExisting` (lines 116-124): unconditional
request for existing purchases. -/
def getExisting (refresh : Bool) : List RequestAction :=
  [RequestAction.issueRequest (Request.existingPurchases refresh)]

/-- The accumulation loop of `existingPurchasesResponse` (lines 150-153):
`displayString += (receiptToString(r) + "\n")` over the receipts. -/
def formatReceipts (receipts : List PurchaseReceipt) : String :=
  receipts.foldl (fun displayString r => displayString ++ (receiptToString r ++ "\n")) ""

/-- `PaymentServiceControl::existingPurchasesResponse` (lines 130-159). -/
def existingPurchasesResponse (reply : ExistingPurchasesReply) : List Event :=
  (if reply.isError then
    [Event.emit (Notification.infoResponseError reply.errorCode reply.errorText)]
  else
    if reply.purchases.isEmpty then
      [Event.emit (Notification.existingPurchasesResponseSuccess "(No purchases)")]
    else
      [Event.emit (Notification.existingPurchasesResponseSuccess (formatReceipts reply.purchases))])
  ++ [Event.deleteLater]

/-- `PaymentServiceControl::getPrice` (lines 164-176). -/
def getPrice (id sku : String) : List RequestAction :=
  if id.isEmpty then []
  else [RequestAction.issueRequest (Request.price id sku)]

/-- `PaymentServiceControl::priceResponse` (lines 181-199). -/
def priceResponse (reply : PriceReply) : List Event :=
  (if reply.isError then
    [Event.emit (Notification.infoResponseError reply.errorCode reply.errorText)]
  else
    [Event.emit (Notification.priceResponseSuccess reply.price)])
  ++ [Event.deleteLater]

/-- `PaymentServiceControl::getSubscriptionTerms` (lines 204-215). -/
def getSubscriptionTerms (id sku : String) : List RequestAction :=
  if id.isEmpty then []
  else [RequestAction.issueRequest (Request.subscriptionTerms id sku)]

/-- `PaymentServiceControl::subscriptionTermsResponse` (lines 220-241). -/
def subscriptionTermsResponse (reply : SubscriptionTermsReply) : List Event :=
  (if reply.isError then
    [Event.emit (Notification.infoResponseError reply.errorCode reply.errorText)]
  else
    [Event.emit (Notification.subscriptionTermsResponseSuccess
      reply.price reply.initialPeriod reply.renewalPrice reply.renewalPeriod)])
  ++ [Event.deleteLater]

/-- `PaymentServiceControl::checkSubscriptionStatus` (lines 246-257). -/
def checkSubscriptionStatus (id sku : String) : List RequestAction :=
  if id.isEmpty then []
  else [RequestAction.issueRequest (Request.subscriptionStatus id sku)]

/-- `PaymentServiceControl::subscriptionStatusResponse` (lines 262-279). -/
def subscriptionStatusResponse (reply : SubscriptionStatusReply) : List Event :=
  (if reply.isError then
    [Event.emit (Notification.infoResponseError reply.errorCode reply.errorText)]
  else
    [Event.emit (Notification.checkStatusResponseSuccess reply.isActive)])
  ++ [Event.deleteLater]

/-- `PaymentServiceControl::cancelSubscription` (lines 284-295). -/
def cancelSubscription (purchaseId : String) : List RequestAction :=
  if purchaseId.isEmpty then []
  else [RequestAction.issueRequest (Request.cancelSubscription purchaseId)]

/-- `PaymentServiceControl::cancelSubscriptionResponse` (lines 300-317). -/
def cancelSubscriptionResponse (reply : CancelSubscriptionReply) : List Event :=
  (if reply.isError then
    [Event.emit (Notification.infoResponseError reply.errorCode reply.errorText)]
  else
    [Event.emit (Notification.cancelSubscriptionResponseSuccess reply.isCanceled)])
  ++ [Event.deleteLater]

end PaymentServiceControl

/-- Blocks joined with a single newline between consecutive blocks
(spec wording: concatenated with newline separators / blank-line
separation between blocks that already end in a newline). -/
def newlineSeparated : List String → String
  | [] => ""
  | [b] => b
  | b :: bs => b ++ "\n" ++ newlineSeparated bs

/-- A concrete receipt used to instantiate universally quantified
theorems at a specific input. -/
def sampleReceipt : PurchaseReceipt :=
  { date := ⟨some "Sat Feb 23 2013"⟩
    digitalGoodId := "good-1"
    digitalGoodSku := "sku-1"
    purchaseId := "p-1"
    licenseKey := "key-1"
    purchaseMetadata := "meta"
    state := 2
    isSubscription := true
    startDate := ⟨some "Sat Feb 23 2013"⟩
    endDate := ⟨none⟩
    initialPeriod := 30 }

/-- A second concrete receipt, with both optional dates null. -/
def sampleReceiptNoDates : PurchaseReceipt :=
  { date := ⟨none⟩
    digitalGoodId := "good-2"
    digitalGoodSku := "sku-2"
    purchaseId := "p-2"
    licenseKey := "key-2"
    purchaseMetadata := ""
    state := 0
    isSubscription := false
    startDate := ⟨none⟩
    endDate := ⟨none⟩
    initialPeriod := 0 }

open PaymentServiceControl

/-- The accumulator of the display-string loop factors out on the left:
starting the fold from `a` prepends `a` to the result of starting it from
the empty string. -/
theorem foldl_display_accum (l : List PurchaseReceipt) (a : String) :
    List.foldl (fun displayString r => displayString ++ (receiptToString r ++ "\n")) a l
      = a ++ List.foldl (fun displayString r => displayString ++ (receiptToString r ++ "\n")) "" l := by
  induction l generalizing a with
  | nil => simp [String.append_empty]
  | cons r t ih =>
    rw [List.foldl_cons, List.foldl_cons,
      ih (a ++ (receiptToString r ++ "\n")), ih ("" ++ (receiptToString r ++ "\n"))]
    simp [String.append_assoc, String.empty_append]

/-- Unfolding one step of the display-string loop. -/
theorem formatReceipts_cons (r : PurchaseReceipt) (t : List PurchaseReceipt) :
    formatReceipts (r :: t) = (receiptToString r ++ "\n") ++ formatReceipts t := by
  simp only [formatReceipts, List.foldl_cons, String.empty_append]
  exact foldl_display_accum t (receiptToString r ++ "\n")

/-- Every formatted receipt block ends in a newline (the formatter
appends a final `"\n"`). -/
theorem receiptToString_concat_newline (r : PurchaseReceipt) :
    ∃ t, receiptToString r = t ++ "\n" :=
  ⟨_, rfl⟩

/-- On a non-empty receipt list the loop's output is the formatted blocks
joined by single newlines, followed by one final newline. -/
theorem formatReceipts_eq_newlineSeparated (l : List PurchaseReceipt) (h : l ≠ []) :
    formatReceipts l = newlineSeparated (l.map receiptToString) ++ "\n" := by
  induction l with
  | nil => exact absurd rfl h
  | cons r t ih =>
    cases t with
    | nil =>
      simp only [formatReceipts, List.foldl_cons, List.foldl_nil, String.empty_append,
        List.map_cons, List.map_nil, newlineSeparated]
    | cons b u =>
      rw [formatReceipts_cons, ih (by simp)]
      simp [List.map_cons, newlineSeparated, String.append_assoc]

/-- On a non-empty receipt list the loop's output ends in two
consecutive newlines. -/
theorem formatReceipts_trailing (l : List PurchaseReceipt) (h : l ≠ []) :
    ∃ t, formatReceipts l = t ++ "\n\n" := by
  induction l with
  | nil => exact absurd rfl h
  | cons r s ih =>
    cases s with
    | nil =>
      obtain ⟨t0, ht⟩ := receiptToString_concat_newline r
      refine ⟨t0, ?_⟩
      rw [formatReceipts_cons, ht]
      simp only [formatReceipts, List.foldl_nil]
      rw [String.append_empty, String.append_assoc]
      rfl
    | cons b u =>
      obtain ⟨t1, ht⟩ := ih (by simp)
      refine ⟨(receiptToString r ++ "\n") ++ t1, ?_⟩
      rw [formatReceipts_cons, ht, ← String.append_assoc]

/-- C1: for every non-empty existing-purchases result list of N receipts,
the success payload emitted by the existing-purchases completion handler
contains exactly N formatted receipt blocks, separated by a blank line,
in provider-supplied order: the payload is the receipts' blocks, in list
order, joined by single newlines plus a final newline, there are as many
blocks as receipts, and every block itself ends in a newline, so the
joining newline forms a blank line between consecutive blocks. -/
theorem existingPurchases_nonempty_blocks (reply : ExistingPurchasesReply)
    (he : reply.isError = false) (hp : reply.purchases ≠ []) :
    existingPurchasesResponse reply
      = [Event.emit (Notification.existingPurchasesResponseSuccess
          (newlineSeparated (reply.purchases.map receiptToString) ++ "\n")),
         Event.deleteLater]
      ∧ (reply.purchases.map receiptToString).length = reply.purchases.length
      ∧ ∀ r ∈ reply.purchases, ∃ t, receiptToString r = t ++ "\n" := by
  have hne : reply.purchases.isEmpty = false := by
    cases hq : reply.purchases with
    | nil => exact absurd hq hp
    | cons x xs => rfl
  refine ⟨?_, by simp, fun r _ => receiptToString_concat_newline r⟩
  simp only [existingPurchasesResponse, he, hne, Bool.false_eq_true, if_false]
  rw [formatReceipts_eq_newlineSeparated _ hp]
  rfl

theorem existingPurchases_nonempty_blocks_witness :
    ((⟨false, 0, "", [sampleReceipt, sampleReceiptNoDates]⟩ : ExistingPurchasesReply).isError = false)
    ∧ ([sampleReceipt, sampleReceiptNoDates] ≠ ([] : List PurchaseReceipt))
    ∧ (existingPurchasesResponse ⟨false, 0, "", [sampleReceipt, sampleReceiptNoDates]⟩
        = [Event.emit (Notification.existingPurchasesResponseSuccess
            (newlineSeparated ([sampleReceipt, sampleReceiptNoDates].map receiptToString) ++ "\n")),
           Event.deleteLater]
       ∧ ([sampleReceipt, sampleReceiptNoDates].map receiptToString).length
           = ([sampleReceipt, sampleReceiptNoDates] : List PurchaseReceipt).length
       ∧ ∀ r ∈ [sampleReceipt, sampleReceiptNoDates], ∃ t, receiptToString r = t ++ "\n") :=
  ⟨rfl, by decide, existingPurchases_nonempty_blocks _ rfl (by decide)⟩

/-- C2: every completion handler, on every reply, emits exactly one
notification — the shared error notification exactly when the reply is
flagged as error, a kind-specific success notification otherwise, never
both and never neither — and then releases the reply: the trace of each
of the six handlers is `[emit n, deleteLater]` for a single notification
`n` whose channel matches the reply's error flag. -/
theorem completion_exactly_one_notification_then_release :
    (∀ p : PurchaseReply, ∃ n, purchaseResponse p = [Event.emit n, Event.deleteLater]
      ∧ n.isErrorNote = p.isError)
    ∧ (∀ e : ExistingPurchasesReply, ∃ n,
        existingPurchasesResponse e = [Event.emit n, Event.deleteLater]
      ∧ n.isErrorNote = e.isError)
    ∧ (∀ q : PriceReply, ∃ n, priceResponse q = [Event.emit n, Event.deleteLater]
      ∧ n.isErrorNote = q.isError)
    ∧ (∀ t : SubscriptionTermsReply, ∃ n,
        subscriptionTermsResponse t = [Event.emit n, Event.deleteLater]
      ∧ n.isErrorNote = t.isError)
    ∧ (∀ s : SubscriptionStatusReply, ∃ n,
        subscriptionStatusResponse s = [Event.emit n, Event.deleteLater]
      ∧ n.isErrorNote = s.isError)
    ∧ (∀ c : CancelSubscriptionReply, ∃ n,
        cancelSubscriptionResponse c = [Event.emit n, Event.deleteLater]
      ∧ n.isErrorNote = c.isError) := by
  refine ⟨fun p => ?_, fun e => ?_, fun q => ?_, fun t => ?_, fun s => ?_, fun c => ?_⟩
  · cases hp : p.isError with
    | false =>
      exact ⟨Notification.purchaseResponseSuccess (receiptToString p.receipt),
        by simp [purchaseResponse, hp], by simp [Notification.isErrorNote]⟩
    | true =>
      exact ⟨Notification.infoResponseError p.errorCode p.errorText,
        by simp [purchaseResponse, hp], by simp [Notification.isErrorNote]⟩
  · cases he : e.isError with
    | false =>
      cases hq : e.purchases.isEmpty with
      | false =>
        exact ⟨Notification.existingPurchasesResponseSuccess (formatReceipts e.purchases),
          by simp [existingPurchasesResponse, he, hq], by simp [Notification.isErrorNote]⟩
      | true =>
        exact ⟨Notification.existingPurchasesResponseSuccess "(No purchases)",
          by simp [existingPurchasesResponse, he, hq], by simp [Notification.isErrorNote]⟩
    | true =>
      exact ⟨Notification.infoResponseError e.errorCode e.errorText,
        by simp [existingPurchasesResponse, he], by simp [Notification.isErrorNote]⟩
  · cases hp : q.isError with
    | false =>
      exact ⟨Notification.priceResponseSuccess q.price,
        by simp [priceResponse, hp], by simp [Notification.isErrorNote]⟩
    | true =>
      exact ⟨Notification.infoResponseError q.errorCode q.errorText,
        by simp [priceResponse, hp], by simp [Notification.isErrorNote]⟩
  · cases hp : t.isError with
    | false =>
      exact ⟨Notification.subscriptionTermsResponseSuccess
          t.price t.initialPeriod t.renewalPrice t.renewalPeriod,
        by simp [subscriptionTermsResponse, hp], by simp [Notification.isErrorNote]⟩
    | true =>
      exact ⟨Notification.infoResponseError t.errorCode t.errorText,
        by simp [subscriptionTermsResponse, hp], by simp [Notification.isErrorNote]⟩
  · cases hp : s.isError with
    | false =>
      exact ⟨Notification.checkStatusResponseSuccess s.isActive,
        by simp [subscriptionStatusResponse, hp], by simp [Notification.isErrorNote]⟩
    | true =>
      exact ⟨Notification.infoResponseError s.errorCode s.errorText,
        by simp [subscriptionStatusResponse, hp], by simp [Notification.isErrorNote]⟩
  · cases hp : c.isError with
    | false =>
      exact ⟨Notification.cancelSubscriptionResponseSuccess c.isCanceled,
        by simp [cancelSubscriptionResponse, hp], by simp [Notification.isErrorNote]⟩
    | true =>
      exact ⟨Notification.infoResponseError c.errorCode c.errorText,
        by simp [cancelSubscriptionResponse, hp], by simp [Notification.isErrorNote]⟩

/-- C3: calling any of the five operations that take an identifying
parameter (`purchase`, `getPrice`, `getSubscriptionTerms`,
`checkSubscriptionStatus` with `id`; `cancelSubscription` with
`purchaseId`) with an empty identifying parameter performs no action at
all: no request is issued to the payment manager and no notification
(success or error) is raised. -/
theorem empty_identifier_silent_noop (id sku name metadata : String)
    (h : id.isEmpty = true) :
    purchase id sku name metadata = []
    ∧ getPrice id sku = []
    ∧ getSubscriptionTerms id sku = []
    ∧ checkSubscriptionStatus id sku = []
    ∧ cancelSubscription id = [] := by
  simp [purchase, getPrice, getSubscriptionTerms, checkSubscriptionStatus,
    cancelSubscription, h]

theorem empty_identifier_silent_noop_witness :
    ("" : String).isEmpty = true
    ∧ (purchase "" "sku1" "name1" "meta1" = []
       ∧ getPrice "" "sku1" = []
       ∧ getSubscriptionTerms "" "sku1" = []
       ∧ checkSubscriptionStatus "" "sku1" = []
       ∧ cancelSubscription "" = []) :=
  ⟨rfl, empty_identifier_silent_noop "" "sku1" "name1" "meta1" rfl⟩

/-- C4: whenever a provider completion reports an error with code `C` and
text `T`, each of the six completion handlers emits the shared error
notification `infoResponseError` carrying exactly `(C, T)` unchanged,
then releases the reply. -/
theorem provider_error_forwarded_verbatim :
    (∀ p : PurchaseReply, p.isError = true →
      purchaseResponse p
        = [Event.emit (Notification.infoResponseError p.errorCode p.errorText),
           Event.deleteLater])
    ∧ (∀ e : ExistingPurchasesReply, e.isError = true →
      existingPurchasesResponse e
        = [Event.emit (Notification.infoResponseError e.errorCode e.errorText),
           Event.deleteLater])
    ∧ (∀ q : PriceReply, q.isError = true →
      priceResponse q
        = [Event.emit (Notification.infoResponseError q.errorCode q.errorText),
           Event.deleteLater])
    ∧ (∀ t : SubscriptionTermsReply, t.isError = true →
      subscriptionTermsResponse t
        = [Event.emit (Notification.infoResponseError t.errorCode t.errorText),
           Event.deleteLater])
    ∧ (∀ s : SubscriptionStatusReply, s.isError = true →
      subscriptionStatusResponse s
        = [Event.emit (Notification.infoResponseError s.errorCode s.errorText),
           Event.deleteLater])
    ∧ (∀ c : CancelSubscriptionReply, c.isError = true →
      cancelSubscriptionResponse c
        = [Event.emit (Notification.infoResponseError c.errorCode c.errorText),
           Event.deleteLater]) := by
  refine ⟨fun p h => ?_, fun e h => ?_, fun q h => ?_, fun t h => ?_,
    fun s h => ?_, fun c h => ?_⟩
  · simp [purchaseResponse, h]
  · simp [existingPurchasesResponse, h]
  · simp [priceResponse, h]
  · simp [subscriptionTermsResponse, h]
  · simp [subscriptionStatusResponse, h]
  · simp [cancelSubscriptionResponse, h]

theorem provider_error_forwarded_verbatim_witness :
    ((⟨true, 42, "boom", sampleReceipt⟩ : PurchaseReply).isError = true)
    ∧ purchaseResponse ⟨true, 42, "boom", sampleReceipt⟩
        = [Event.emit (Notification.infoResponseError 42 "boom"), Event.deleteLater]
    ∧ existingPurchasesResponse ⟨true, 42, "boom", []⟩
        = [Event.emit (Notification.infoResponseError 42 "boom"), Event.deleteLater]
    ∧ priceResponse ⟨true, 42, "boom", "$0.99"⟩
        = [Event.emit (Notification.infoResponseError 42 "boom"), Event.deleteLater]
    ∧ subscriptionTermsResponse ⟨true, 42, "boom", "$0.99", "30", "$0.99", "30"⟩
        = [Event.emit (Notification.infoResponseError 42 "boom"), Event.deleteLater]
    ∧ subscriptionStatusResponse ⟨true, 42, "boom", true⟩
        = [Event.emit (Notification.infoResponseError 42 "boom"), Event.deleteLater]
    ∧ cancelSubscriptionResponse ⟨true, 42, "boom", true⟩
        = [Event.emit (Notification.infoResponseError 42 "boom"), Event.deleteLater] :=
  ⟨rfl,
   provider_error_forwarded_verbatim.1 _ rfl,
   provider_error_forwarded_verbatim.2.1 _ rfl,
   provider_error_forwarded_verbatim.2.2.1 _ rfl,
   provider_error_forwarded_verbatim.2.2.2.1 _ rfl,
   provider_error_forwarded_verbatim.2.2.2.2.1 _ rfl,
   provider_error_forwarded_verbatim.2.2.2.2.2 _ rfl⟩

/-- C5: when a non-error existing-purchases completion carries an empty
result list, the emitted success payload is exactly the literal string
"(No purchases)". -/
theorem existingPurchases_empty_payload (reply : ExistingPurchasesReply)
    (he : reply.isError = false) (hp : reply.purchases = []) :
    existingPurchasesResponse reply
      = [Event.emit (Notification.existingPurchasesResponseSuccess "(No purchases)"),
         Event.deleteLater] := by
  simp [existingPurchasesResponse, he, hp]

theorem existingPurchases_empty_payload_witness :
    ((⟨false, 0, "", []⟩ : ExistingPurchasesReply).isError = false)
    ∧ ((⟨false, 0, "", []⟩ : ExistingPurchasesReply).purchases = [])
    ∧ existingPurchasesResponse ⟨false, 0, "", []⟩
        = [Event.emit (Notification.existingPurchasesResponseSuccess "(No purchases)"),
           Event.deleteLater] :=
  ⟨rfl, rfl, existingPurchases_empty_payload _ rfl rfl⟩

/-- C6: the receipt formatter renders the start-date and end-date fields
of the "Start/End: " line as the literal "N/A" exactly when the
corresponding date is null, and as the date's formatted string when it is
present; the rest of the output surrounds that line unchanged. -/
theorem receipt_dates_na_rendering (r : PurchaseReceipt) :
    ∃ pre post,
      receiptToString r
        = pre ++ "\nStart/End: "
          ++ (if r.startDate.isNull then "N/A" else r.startDate.toString)
          ++ "/"
          ++ (if r.endDate.isNull then "N/A" else r.endDate.toString)
          ++ "\nInitialPeriod: " ++ post := by
  refine ⟨"Date: " ++ r.date.toString ++ "\nID/SKU: " ++ r.digitalGoodId ++ "/"
      ++ r.digitalGoodSku ++ "\nPurchaseID/licenseKey: " ++ r.purchaseId ++ "/"
      ++ r.licenseKey ++ "\nMetadata: " ++ r.purchaseMetadata
      ++ "\nItemState/isSubscription?: " ++ toString r.state ++ "/"
      ++ (if r.isSubscription then "true" else "false"),
    toString r.initialPeriod ++ "\n", ?_⟩
  simp [receiptToString, String.append_assoc]

/-- C7: the receipt formatter is a function of the receipt alone whose
output is a fixed-layout block: the seven field lines, in exactly the
order purchase date, digital-good id and sku, purchase id and license
key, metadata, item-state code and subscription flag, start/end dates,
initial period, joined by newline separators, with a final newline. -/
theorem receiptToString_fixed_layout (r : PurchaseReceipt) :
    receiptToString r
      = newlineSeparated
          ["Date: " ++ r.date.toString,
           "ID/SKU: " ++ r.digitalGoodId ++ "/" ++ r.digitalGoodSku,
           "PurchaseID/licenseKey: " ++ r.purchaseId ++ "/" ++ r.licenseKey,
           "Metadata: " ++ r.purchaseMetadata,
           "ItemState/isSubscription?: " ++ toString r.state ++ "/"
             ++ (if r.isSubscription then "true" else "false"),
           "Start/End: " ++ (if r.startDate.isNull then "N/A" else r.startDate.toString)
             ++ "/" ++ (if r.endDate.isNull then "N/A" else r.endDate.toString),
           "InitialPeriod: " ++ toString r.initialPeriod] ++ "\n" := by
  have h1 : ("\nID/SKU: " : String) = "\n" ++ "ID/SKU: " := rfl
  have h2 : ("\nPurchaseID/licenseKey: " : String) = "\n" ++ "PurchaseID/licenseKey: " := rfl
  have h3 : ("\nMetadata: " : String) = "\n" ++ "Metadata: " := rfl
  have h4 : ("\nItemState/isSubscription?: " : String)
      = "\n" ++ "ItemState/isSubscription?: " := rfl
  have h5 : ("\nStart/End: " : String) = "\n" ++ "Start/End: " := rfl
  have h6 : ("\nInitialPeriod: " : String) = "\n" ++ "InitialPeriod: " := rfl
  simp only [receiptToString]
  rw [h1, h2, h3, h4, h5, h6]
  simp only [newlineSeparated, String.append_assoc]

/-- C8: the empty-parameter guard inspects only the identifying
parameter: with a non-empty `id` (respectively `purchaseId`), every
operation issues its request even when every non-identifying parameter
(sku, name, metadata) is arbitrary — in particular empty — so the
non-identifying parameters are never validated. -/
theorem nonidentifying_params_not_validated (id sku name metadata : String)
    (h : id.isEmpty = false) :
    purchase id sku name metadata
      = [RequestAction.issueRequest (Request.purchase id sku name metadata)]
    ∧ getPrice id sku = [RequestAction.issueRequest (Request.price id sku)]
    ∧ getSubscriptionTerms id sku
      = [RequestAction.issueRequest (Request.subscriptionTerms id sku)]
    ∧ checkSubscriptionStatus id sku
      = [RequestAction.issueRequest (Request.subscriptionStatus id sku)]
    ∧ cancelSubscription id
      = [RequestAction.issueRequest (Request.cancelSubscription id)] := by
  simp [purchase, getPrice, getSubscriptionTerms, checkSubscriptionStatus,
    cancelSubscription, h]

theorem nonidentifying_params_not_validated_witness :
    ("item1" : String).isEmpty = false
    ∧ (purchase "item1" "" "" ""
        = [RequestAction.issueRequest (Request.purchase "item1" "" "" "")]
       ∧ getPrice "item1" "" = [RequestAction.issueRequest (Request.price "item1" "")]
       ∧ getSubscriptionTerms "item1" ""
        = [RequestAction.issueRequest (Request.subscriptionTerms "item1" "")]
       ∧ checkSubscriptionStatus "item1" ""
        = [RequestAction.issueRequest (Request.subscriptionStatus "item1" "")]
       ∧ cancelSubscription "item1"
        = [RequestAction.issueRequest (Request.cancelSubscription "item1")]) :=
  ⟨by decide, nonidentifying_params_not_validated "item1" "" "" "" (by decide)⟩

/-- C9: on every non-empty existing-purchases result list the emitted
display string ends with a trailing blank line: each block already ends
with a newline from the formatter and the loop appends one more newline
after every block, the last included, so the payload ends in two
consecutive newlines. -/
theorem existingPurchases_trailing_blank_line (reply : ExistingPurchasesReply)
    (he : reply.isError = false) (hp : reply.purchases ≠ []) :
    ∃ t, existingPurchasesResponse reply
      = [Event.emit (Notification.existingPurchasesResponseSuccess (t ++ "\n\n")),
         Event.deleteLater] := by
  have hne : reply.purchases.isEmpty = false := by
    cases hq : reply.purchases with
    | nil => exact absurd hq hp
    | cons x xs => rfl
  obtain ⟨t, ht⟩ := formatReceipts_trailing reply.purchases hp
  refine ⟨t, ?_⟩
  simp [existingPurchasesResponse, he, hne, ht]

theorem existingPurchases_trailing_blank_line_witness :
    ((⟨false, 0, "", [sampleReceipt]⟩ : ExistingPurchasesReply).isError = false)
    ∧ ([sampleReceipt] ≠ ([] : List PurchaseReceipt))
    ∧ (∃ t, existingPurchasesResponse ⟨false, 0, "", [sampleReceipt]⟩
        = [Event.emit (Notification.existingPurchasesResponseSuccess (t ++ "\n\n")),
           Event.deleteLater]) :=
  ⟨rfl, by decide, existingPurchases_trailing_blank_line _ rfl (by decide)⟩

/-- C10: on every non-error completion of a cancel-subscription or
subscription-status request, the success notification forwards the
provider's boolean flag (`isCanceled`, `isActive`) verbatim; in
particular a success notification with payload `false` is possible (see
the witness), so a cancel-subscription success notification does not by
itself imply the subscription was canceled. -/
theorem boolean_flags_forwarded_verbatim :
    (∀ c : CancelSubscriptionReply, c.isError = false →
      cancelSubscriptionResponse c
        = [Event.emit (Notification.cancelSubscriptionResponseSuccess c.isCanceled),
           Event.deleteLater])
    ∧ (∀ s : SubscriptionStatusReply, s.isError = false →
      subscriptionStatusResponse s
        = [Event.emit (Notification.checkStatusResponseSuccess s.isActive),
           Event.deleteLater]) := by
  refine ⟨fun c h => ?_, fun s h => ?_⟩
  · simp [cancelSubscriptionResponse, h]
  · simp [subscriptionStatusResponse, h]

theorem boolean_flags_forwarded_verbatim_witness :
    ((⟨false, 0, "", false⟩ : CancelSubscriptionReply).isError = false)
    ∧ cancelSubscriptionResponse ⟨false, 0, "", false⟩
        = [Event.emit (Notification.cancelSubscriptionResponseSuccess false),
           Event.deleteLater]
    ∧ subscriptionStatusResponse ⟨false, 0, "", false⟩
        = [Event.emit (Notification.checkStatusResponseSuccess false),
           Event.deleteLater] :=
  ⟨rfl,
   boolean_flags_forwarded_verbatim.1 _ rfl,
   boolean_flags_forwarded_verbatim.2 _ rfl⟩
